import Mathlib

/-!
Verification of the request-classification and Odoo tool layer of the
smart-odoo-ai-assistant repository, shallowly embedded in Lean 4.

The embedding covers:
* `analyze_request_type` from `smart_assistant.py` (the keyword classifier),
* the exception-handling arm of the interactive loop in `smart_assistant.py`,
* `OdooCustomerInfoTool._run` from `tools/customer_tools.py`,
* `OdooMultilingualProductFinder._run`, `OdooMultilingualProductUpdater._run`
  and `OdooMultilingualProductUpdater._verify_updates` from
  `tools/multilingual_product_tools.py`.

External effects (the Odoo XML-RPC store and the LLM backend) are passed in as
explicit oracle functions; each Python `try/except` boundary becomes an
`Except` value, so every embedded operation is a total Lean function.
-/

/-- Python's substring test `pat in s`: `pat` occurs contiguously in `s`
(the empty string occurs in every string, as in Python). -/
def pyIn (pat s : String) : Bool := decide (pat.data <:+: s.data)

/-- Model of Python's `str.lower()` (ASCII fragment, which covers every
keyword in the classifier tables): lower-case each character. -/
def pyLower (s : String) : String := ⟨s.data.map Char.toLower⟩

/-! ## Classifier (`smart_assistant.py`, `analyze_request_type`) -/

/-- `customer_keywords` from `analyze_request_type`. -/
def customer_keywords : List String :=
  ["customer", "client", "contact", "who is", "find customer", "customer info"]

/-- `product_keywords` from `analyze_request_type`. -/
def product_keywords : List String :=
  ["product", "item", "update product", "polish product", "create product",
   "find product", "description", "multilingual", "translate"]

/-- `email_keywords` from `analyze_request_type`. -/
def email_keywords : List String :=
  ["email", "draft", "write email", "send email", "communication", "message"]

/-- Embedding of `analyze_request_type(user_request)`: lower-case the request,
then test the three keyword lists in the source's order (customer, product,
email), falling through to `"general"`. -/
def analyze_request_type (user_request : String) : String :=
  let request_lower := pyLower user_request
  if customer_keywords.any (fun keyword => pyIn keyword request_lower) then
    "customer_service"
  else if product_keywords.any (fun keyword => pyIn keyword request_lower) then
    "product_management"
  else if email_keywords.any (fun keyword => pyIn keyword request_lower) then
    "email_communication"
  else
    "general"

/-- The classifier's category table in the order the code checks it:
customer keywords first, then product keywords, then email keywords. -/
def categoryTable : List (String × List String) :=
  [("customer_service", customer_keywords),
   ("product_management", product_keywords),
   ("email_communication", email_keywords)]

/-- Spec-side model of the classifier (the spec's words, for the refinement
claim): return the category of the first table pair with a matching keyword,
default `"general"`. -/
def classifySpec (req : String) : String :=
  match categoryTable.find? (fun p => p.2.any (fun k => pyIn k (pyLower req))) with
  | some p => p.1
  | none => "general"

/-- C1: the classifier lower-cases the text, checks the ordered table
(customer, product, email) and returns the first matching category,
defaulting to `"general"`. -/
theorem analyze_request_type_eq_classifySpec (s : String) :
    analyze_request_type s = classifySpec s := by
  unfold analyze_request_type classifySpec categoryTable
  cases h1 : customer_keywords.any (fun k => pyIn k (pyLower s)) <;>
    cases h2 : product_keywords.any (fun k => pyIn k (pyLower s)) <;>
      cases h3 : email_keywords.any (fun k => pyIn k (pyLower s)) <;>
        simp [List.find?, h1, h2, h3]

/-- C9: classification is deterministic — equal inputs give equal categories —
and every output lies in the classifier's closed category set. The embedded
`analyze_request_type` is pure by construction, matching the source function,
which performs only string operations on its argument and the three fixed
keyword lists. -/
theorem analyze_request_type_deterministic (s₁ s₂ : String) (h : s₁ = s₂) :
    analyze_request_type s₁ = analyze_request_type s₂ ∧
      analyze_request_type s₁ ∈
        ["customer_service", "product_management", "email_communication", "general"] := by
  subst h
  refine ⟨rfl, ?_⟩
  cases h1 : customer_keywords.any (fun k => pyIn k (pyLower s₁)) <;>
    cases h2 : product_keywords.any (fun k => pyIn k (pyLower s₁)) <;>
      cases h3 : email_keywords.any (fun k => pyIn k (pyLower s₁)) <;>
        simp [analyze_request_type, h1, h2, h3]

/-- Witness for `analyze_request_type_deterministic` at a concrete input. -/
theorem analyze_request_type_deterministic_witness :
    analyze_request_type "Who is customer Marina?" =
        analyze_request_type "Who is customer Marina?" ∧
      analyze_request_type "Who is customer Marina?" ∈
        ["customer_service", "product_management", "email_communication", "general"] :=
  analyze_request_type_deterministic "Who is customer Marina?" "Who is customer Marina?" rfl

/-- C7 counterexample: the request `"customer message"` contains the keyword
`"message"`, which belongs to the email keyword table and to no other table,
yet classification returns `"customer_service"`, not `"email_communication"`:
the customer check runs first and `"customer"` also occurs. -/
theorem analyze_request_type_only_keyword_counterexample :
    pyIn "message" (pyLower "customer message") = true ∧
      "message" ∈ email_keywords ∧
      "message" ∉ customer_keywords ∧
      "message" ∉ product_keywords ∧
      analyze_request_type "customer message" = "customer_service" ∧
      "customer_service" ≠ "email_communication" := by
  refine ⟨by decide, by decide, by decide, by decide, ?_, by decide⟩
  decide

/-- C7 amended: if the request contains a keyword belonging only to category
`A`'s table (at position `i` of the check order), and no keyword of any
category checked before `A` occurs in the request, then classification
returns `A`. -/
theorem analyze_request_type_only_keyword (req : String) (i : Nat)
    (hi : i < categoryTable.length) (cat : String) (kws : List String)
    (hget : categoryTable.get ⟨i, hi⟩ = (cat, kws)) (k : String)
    (hk : k ∈ kws)
    (hocc : pyIn k (pyLower req) = true)
    (honly : ∀ p ∈ categoryTable.take i ++ categoryTable.drop (i + 1), k ∉ p.2)
    (hearlier : ∀ p ∈ categoryTable.take i, ∀ k' ∈ p.2,
      pyIn k' (pyLower req) = false) :
    analyze_request_type req = cat := by
  have hi3 : i < 3 := by simpa [categoryTable] using hi
  interval_cases i <;> simp [categoryTable, List.get] at hget <;>
    obtain ⟨rfl, rfl⟩ := hget
  · have hmatch : customer_keywords.any (fun kw => pyIn kw (pyLower req)) = true :=
      List.any_eq_true.mpr ⟨k, hk, hocc⟩
    simp [analyze_request_type, hmatch]
  · have hno : customer_keywords.any (fun kw => pyIn kw (pyLower req)) = false := by
      rw [Bool.eq_false_iff]
      intro hany
      obtain ⟨k', hk', hk'occ⟩ := List.any_eq_true.mp hany
      have := hearlier ("customer_service", customer_keywords)
        (by simp [categoryTable]) k' hk'
      simp [this] at hk'occ
    have hmatch : product_keywords.any (fun kw => pyIn kw (pyLower req)) = true :=
      List.any_eq_true.mpr ⟨k, hk, hocc⟩
    simp [analyze_request_type, hno, hmatch]
  · have hno1 : customer_keywords.any (fun kw => pyIn kw (pyLower req)) = false := by
      rw [Bool.eq_false_iff]
      intro hany
      obtain ⟨k', hk', hk'occ⟩ := List.any_eq_true.mp hany
      have := hearlier ("customer_service", customer_keywords)
        (by simp [categoryTable]) k' hk'
      simp [this] at hk'occ
    have hno2 : product_keywords.any (fun kw => pyIn kw (pyLower req)) = false := by
      rw [Bool.eq_false_iff]
      intro hany
      obtain ⟨k', hk', hk'occ⟩ := List.any_eq_true.mp hany
      have := hearlier ("product_management", product_keywords)
        (by simp [categoryTable]) k' hk'
      simp [this] at hk'occ
    have hmatch : email_keywords.any (fun kw => pyIn kw (pyLower req)) = true :=
      List.any_eq_true.mpr ⟨k, hk, hocc⟩
    simp [analyze_request_type, hno1, hno2, hmatch]

/-- Witness for `analyze_request_type_only_keyword`: the request
`"send a message"` contains the email-only keyword `"message"` and no
customer or product keyword, so it classifies as email. -/
theorem analyze_request_type_only_keyword_witness :
    analyze_request_type "send a message" = "email_communication" :=
  analyze_request_type_only_keyword "send a message" 2 (by decide)
    "email_communication" email_keywords (by decide) "message"
    (by decide) (by decide) (by decide) (by decide)

/-! ## Interactive-loop error handling (`smart_assistant.py`, `main`)

One iteration of the `while True:` body after a non-empty request has been
read: the crew handler (`smart_crew.kickoff()`) is invoked, and the
`except Exception` arm distinguishes rate-limit errors (`"429"` or
`"Too Many Requests"` in the message) — those sleep 30 seconds — from other
errors; in both cases the loop prints a message and `continue`s. The handler
is an oracle from attempt number to outcome, so that the number of handler
invocations is observable. -/

/-- The rate-limit test from `main`'s exception handler:
`"429" in error_msg or "Too Many Requests" in error_msg`. -/
def isRateLimitError (error_msg : String) : Bool :=
  pyIn "429" error_msg || pyIn "Too Many Requests" error_msg

/-- Observable outcome of one iteration of the interactive loop body. -/
structure LoopStep where
  /-- `some r` when `smart_crew.kickoff()` returned `r`; `none` when the
  iteration ended in the `except` arm without a result. -/
  output : Option String
  /-- How many times the handler (`smart_crew.kickoff()`) was invoked. -/
  handlerCalls : Nat
  /-- Seconds slept inside the exception handler (`time.sleep(30)`). -/
  sleptSeconds : Nat
  /-- Whether the exception escaped the loop body (terminating the loop). -/
  crashed : Bool
  deriving Repr, DecidableEq

/-- Embedding of one iteration of `main`'s loop body after request analysis:
call the handler once; on success print and keep the result; on an exception
whose message is rate-limit-like, sleep 30 seconds; either way `continue`. -/
def mainLoopBody (handler : Nat → Except String String) : LoopStep :=
  match handler 0 with
  | .ok result => { output := some result, handlerCalls := 1, sleptSeconds := 0, crashed := false }
  | .error e =>
    if isRateLimitError e then
      { output := none, handlerCalls := 1, sleptSeconds := 30, crashed := false }
    else
      { output := none, handlerCalls := 1, sleptSeconds := 0, crashed := false }

/-- A handler whose first attempt raises a rate-limit error and whose retry
would succeed — the scenario of the retry claim. -/
def rateLimitThenSuccess (n : Nat) : Except String String :=
  if n = 0 then .error "429 Too Many Requests" else .ok "the generated draft"

/-- C3 counterexample: with a handler that rate-limits on the first attempt
and would succeed on a retry, the loop body invokes the handler exactly once
and produces no result — it never retries, so the claimed
"retry once and return the result" behaviour does not occur. -/
theorem mainLoopBody_no_retry_counterexample :
    mainLoopBody rateLimitThenSuccess =
      { output := none, handlerCalls := 1, sleptSeconds := 30, crashed := false } ∧
      ¬((mainLoopBody rateLimitThenSuccess).handlerCalls = 2 ∧
        (mainLoopBody rateLimitThenSuccess).output = some "the generated draft") := by
  refine ⟨by decide, ?_⟩
  decide

/-- C3 amended: when the handler raises a rate-limit-type error, the loop
body sleeps a fixed 30 seconds and continues to the next prompt without
retrying (exactly one handler invocation, no result); on any other error it
continues without the sleep. In neither case does the exception escape the
loop. -/
theorem mainLoopBody_rate_limit (handler : Nat → Except String String)
    (e : String) (h : handler 0 = .error e) :
    (mainLoopBody handler).handlerCalls = 1 ∧
      (mainLoopBody handler).output = none ∧
      (mainLoopBody handler).crashed = false ∧
      (mainLoopBody handler).sleptSeconds = (if isRateLimitError e then 30 else 0) := by
  unfold mainLoopBody
  rw [h]
  cases hr : isRateLimitError e <;> simp [hr]

/-- Witness for `mainLoopBody_rate_limit` on a concrete rate-limited
handler. -/
theorem mainLoopBody_rate_limit_witness :
    (mainLoopBody rateLimitThenSuccess).handlerCalls = 1 ∧
      (mainLoopBody rateLimitThenSuccess).output = none ∧
      (mainLoopBody rateLimitThenSuccess).crashed = false ∧
      (mainLoopBody rateLimitThenSuccess).sleptSeconds =
        (if isRateLimitError "429 Too Many Requests" then 30 else 0) :=
  mainLoopBody_rate_limit rateLimitThenSuccess "429 Too Many Requests" rfl

/-- A string that equals `a ++ (sub ++ b)` contains `sub` as a substring. -/
theorem pyIn_of_eq_append (sub s a b : String) (h : s = a ++ (sub ++ b)) :
    pyIn sub s = true := by
  apply decide_eq_true
  refine ⟨a.data, b.data, ?_⟩
  simp [h, String.data_append]

/-! ## Contact lookup (`tools/customer_tools.py`, `OdooCustomerInfoTool._run`)

The primary `res.partner` read and the secondary `sale.order` read are
oracle arguments: `.error` models the corresponding `execute_kw` raising,
`.ok none` models an empty `search_read` result for the partner, and a
record's optional fields model `dict.get(field, default)` with `getD`. -/

/-- The partner fields `_run` reads (`name`, `email`, `phone`, `mobile`,
`street`, `city`, `country_id`); `country` is the display name part of
`country_id`. -/
structure CustomerRecord where
  id : Nat
  name : String
  email : Option String
  phone : Option String
  mobile : Option String
  street : Option String
  city : Option String
  country : Option String
  deriving Repr, DecidableEq

/-- The order fields `_run` reads (`name`, `date_order`, `state`,
`amount_total`), each in its printed form, defaulting to `'N/A'`. -/
structure OrderRecord where
  name : Option String
  date_order : Option String
  state : Option String
  amount_total : Option String
  deriving Repr, DecidableEq

/-- One line of the recent-orders block. -/
def orderLine (o : OrderRecord) : String :=
  "- Order " ++ o.name.getD "N/A" ++ " on " ++ (o.date_order.getD "N/A").take 10 ++
    " (Status: " ++ o.state.getD "N/A" ++ ", Amount: " ++ o.amount_total.getD "N/A" ++ ")\n"

/-- The fully-successful formatting branch of `_run` (customer found, order
read succeeded). -/
def formatCustomerFull (c : CustomerRecord) (orders : List OrderRecord) : String :=
  "Customer Information:\n" ++
    "Name: " ++ c.name ++ "\n" ++
    "Email: " ++ c.email.getD "Not provided" ++ "\n" ++
    "Phone: " ++ c.phone.getD "Not provided" ++ "\n" ++
    "Mobile: " ++ c.mobile.getD "Not provided" ++ "\n" ++
    "Address: " ++ c.street.getD "Not provided" ++ "\n" ++
    "City: " ++ c.city.getD "Not provided" ++ "\n" ++
    (match c.country with
     | some country => "Country: " ++ country ++ "\n"
     | none => "") ++
    (match orders with
     | [] => "\nNo recent orders found.\n"
     | _ => "\nRecent Orders (" ++ toString orders.length ++ "):\n" ++
         String.join (orders.map orderLine))

/-- Embedding of `OdooCustomerInfoTool._run(customer_name)`: the outer
`try/except` turns any primary-read exception into an error string; an empty
partner result yields the no-match message; a secondary-read exception yields
the reduced core-fields message with a note; otherwise the full format. -/
def customerInfoRun (customer_name : String)
    (partnerRead : Except String (Option CustomerRecord))
    (orderRead : Except String (List OrderRecord)) : String :=
  match partnerRead with
  | .error e => "Error searching for customer: " ++ e
  | .ok none =>
      "No customer found matching '" ++ customer_name ++
        "'. Please check the spelling or try a different name."
  | .ok (some customer) =>
    match orderRead with
    | .error order_error =>
        "Customer: " ++ customer.name ++
          "\nEmail: " ++ customer.email.getD "Not provided" ++
          "\nPhone: " ++ customer.phone.getD "Not provided" ++
          "\nNote: Could not retrieve order history due to: " ++ order_error
    | .ok order_data => formatCustomerFull customer order_data

/-- C4: when the primary contact read succeeds but the order-history read
raises, `_run` still returns (as an ordinary string — the embedding is total,
mirroring the source's catch-all handlers) the contact's name, email and
phone, annotated with the order-history-unavailable note. -/
theorem customerInfoRun_order_read_degrades (customer_name : String)
    (c : CustomerRecord) (order_error : String) :
    pyIn c.name (customerInfoRun customer_name (.ok (some c)) (.error order_error)) = true ∧
      pyIn (c.email.getD "Not provided")
        (customerInfoRun customer_name (.ok (some c)) (.error order_error)) = true ∧
      pyIn (c.phone.getD "Not provided")
        (customerInfoRun customer_name (.ok (some c)) (.error order_error)) = true ∧
      pyIn "\nNote: Could not retrieve order history due to: "
        (customerInfoRun customer_name (.ok (some c)) (.error order_error)) = true := by
  refine ⟨?_, ?_, ?_, ?_⟩
  · exact pyIn_of_eq_append _ _ "Customer: "
      ("\nEmail: " ++ c.email.getD "Not provided" ++
        "\nPhone: " ++ c.phone.getD "Not provided" ++
        "\nNote: Could not retrieve order history due to: " ++ order_error)
      (by simp [customerInfoRun, String.append_assoc])
  · exact pyIn_of_eq_append _ _ ("Customer: " ++ c.name ++ "\nEmail: ")
      ("\nPhone: " ++ c.phone.getD "Not provided" ++
        "\nNote: Could not retrieve order history due to: " ++ order_error)
      (by simp [customerInfoRun, String.append_assoc])
  · exact pyIn_of_eq_append _ _
      ("Customer: " ++ c.name ++ "\nEmail: " ++ c.email.getD "Not provided" ++ "\nPhone: ")
      ("\nNote: Could not retrieve order history due to: " ++ order_error)
      (by simp [customerInfoRun, String.append_assoc])
  · exact pyIn_of_eq_append _ _
      ("Customer: " ++ c.name ++ "\nEmail: " ++ c.email.getD "Not provided" ++
        "\nPhone: " ++ c.phone.getD "Not provided")
      order_error
      (by simp [customerInfoRun, String.append_assoc])

/-- C8: when no contact matches, `_run` returns an ordinary string (never an
exception — the embedding is a total function covering all oracle outcomes)
that carries the original search term, with the exact no-match wording of the
source. -/
theorem customerInfoRun_not_found (customer_name : String)
    (orderRead : Except String (List OrderRecord)) :
    customerInfoRun customer_name (.ok none) orderRead =
      "No customer found matching '" ++ customer_name ++
        "'. Please check the spelling or try a different name." ∧
      pyIn customer_name (customerInfoRun customer_name (.ok none) orderRead) = true := by
  refine ⟨rfl, ?_⟩
  exact pyIn_of_eq_append _ _ "No customer found matching '"
    "'. Please check the spelling or try a different name." (by rfl)

/-! ## Product finder (`tools/multilingual_product_tools.py`,
`OdooMultilingualProductFinder._run`)

The finder issues
`search_read('product.product', [('name','=ilike',product_name)],
{'fields': ..., 'limit': 5})` against the store. The store itself is
external; its `search_read` is modelled per the documented RPC interface:
filter the stored records by the domain and truncate to `limit`. -/

/-- The product fields the finder reads. -/
structure ProductRecord where
  id : Nat
  name : String
  description_sale : Option String
  list_price : Option String
  categ_id : Option (Nat × String)
  deriving Repr, DecidableEq

/-- The `=ilike` comparator of the finder's domain, specialised to a pattern
without wildcards: case-insensitive equality. -/
def ilikeEq (pattern value : String) : Bool := pyLower value == pyLower pattern

/-- The store's `search_read` on `product.product` for the finder's call:
domain `[('name','=ilike',product_name)]`, `limit` 5. The record store is
the external ERP; truncation at `limit` follows the RPC interface the tool
calls. -/
def productSearch (store : List ProductRecord) (product_name : String) :
    List ProductRecord :=
  (store.filter (fun p => ilikeEq product_name p.name)).take 5

/-- C6: `findProducts` never obtains more than 5 records, whatever the store
contains — the finder's `search_read` call carries `limit: 5`. -/
theorem productSearch_le_five (store : List ProductRecord) (product_name : String) :
    (productSearch store product_name).length ≤ 5 := by
  unfold productSearch
  rw [List.length_take]
  exact Nat.min_le_left _ _

/-! ## Product updater (`tools/multilingual_product_tools.py`,
`OdooMultilingualProductUpdater._run` and `._verify_updates`)

The two write techniques `_update_with_context` (method 1) and
`_update_translation_record` (method 2) are oracles
`String → String → Except String Bool` (language code and description to
outcome); `.error` models an exception escaping the method into `_run`'s
per-language `except` arm (both methods also catch internally and return
`False`, which `.ok false` models). The verification read is an oracle
`String → Except String (Option (Option String))`: `.error` a raised read,
`.ok none` an empty result list, `.ok (some v)` a row whose
`description_sale` field is `v` (`none` models a falsy field value, which
the source's `or ''` turns into the empty string). The submitted
`descriptions` dict is a list of (language name, description) pairs in
insertion order. -/

/-- Model of Python's `str.strip()`: drop leading and trailing whitespace. -/
def pyStrip (s : String) : String :=
  ⟨((s.data.dropWhile Char.isWhitespace).reverse.dropWhile Char.isWhitespace).reverse⟩

/-- The `language_mapping` dict of `_run` and `_verify_updates`. -/
def language_mapping : List (String × String) :=
  [("English", "en_US"), ("Dutch", "nl_NL")]

/-- The `description` attribute of `OdooMultilingualProductUpdater`. -/
def updaterToolDescription : String :=
  "Updates product descriptions in multiple languages (English, Dutch, French) using proper Odoo translation API."

/-- The report line `_run` produces for one submitted (language,
description) pair: unknown languages get the `Unknown language` line; known
ones try method 1, fall back to method 2 when it returns `False`, and report
success/failure; an exception from either method is caught into the
`Error updating` line. -/
def updateLine (m1 m2 : String → String → Except String Bool)
    (entry : String × String) : String :=
  match language_mapping.lookup entry.1 with
  | none => "❌ Unknown language: " ++ entry.1
  | some lang_code =>
    match m1 lang_code entry.2 with
    | .error e => "❌ Error updating " ++ entry.1 ++ ": " ++ e
    | .ok true => "✅ Successfully updated " ++ entry.1 ++ " description"
    | .ok false =>
      match m2 lang_code entry.2 with
      | .error e => "❌ Error updating " ++ entry.1 ++ ": " ++ e
      | .ok true => "✅ Successfully updated " ++ entry.1 ++ " description"
      | .ok false => "❌ Failed to update " ++ entry.1 ++ " description"

/-- The per-language loop of `_run`: first component the accumulated report
lines, second component the log of store-write attempts as (language code,
description) pairs — a pair is logged exactly when the loop reaches the
write path for that language. -/
def updaterLoop (m1 m2 : String → String → Except String Bool) :
    List (String × String) → List String × List (String × String)
  | [] => ([], [])
  | (lang_name, description) :: rest =>
    let acc := updaterLoop m1 m2 rest
    match language_mapping.lookup lang_name with
    | none => (("❌ Unknown language: " ++ lang_name) :: acc.1, acc.2)
    | some lang_code =>
      let line :=
        match m1 lang_code description with
        | .error e => "❌ Error updating " ++ lang_name ++ ": " ++ e
        | .ok true => "✅ Successfully updated " ++ lang_name ++ " description"
        | .ok false =>
          match m2 lang_code description with
          | .error e => "❌ Error updating " ++ lang_name ++ ": " ++ e
          | .ok true => "✅ Successfully updated " ++ lang_name ++ " description"
          | .ok false => "❌ Failed to update " ++ lang_name ++ " description"
      (line :: acc.1, (lang_code, description) :: acc.2)

/-- One entry of `_verify_updates`: `none` when the language is skipped
(`continue`), otherwise the verification line. The comparison is the
source's `actual_desc.strip() == expected_desc.strip()`. -/
def verifyLine (readBack : String → Except String (Option (Option String)))
    (entry : String × String) : Option String :=
  match language_mapping.lookup entry.1 with
  | none => none
  | some lang_code =>
    match readBack lang_code with
    | .error e => some ("❌ " ++ entry.1 ++ ": Verification error - " ++ e)
    | .ok none => some ("❌ " ++ entry.1 ++ ": Could not read back data")
    | .ok (some fieldVal) =>
      let actual_desc := fieldVal.getD ""
      if pyStrip actual_desc == pyStrip entry.2 then
        some ("✅ " ++ entry.1 ++ ": Update verified")
      else
        some ("❌ " ++ entry.1 ++ ": Update failed - Expected length " ++
          toString entry.2.length ++ ", got length " ++ toString actual_desc.length)

/-- The loop of `_verify_updates` over the submitted descriptions. -/
def verifyLines (readBack : String → Except String (Option (Option String))) :
    List (String × String) → List String
  | [] => []
  | entry :: rest =>
    match verifyLine readBack entry with
    | none => verifyLines readBack rest
    | some line => line :: verifyLines readBack rest

/-- `_verify_updates` returns the joined verification lines. -/
def verifyUpdates (readBack : String → Except String (Option (Option String)))
    (expected_descriptions : List (String × String)) : String :=
  String.intercalate "\n" (verifyLines readBack expected_descriptions)

/-- `_run`: the per-language report lines followed by the verification
block, joined by newlines. -/
def updaterRun (m1 m2 : String → String → Except String Bool)
    (readBack : String → Except String (Option (Option String)))
    (descriptions : List (String × String)) : String :=
  String.intercalate "\n"
    ((updaterLoop m1 m2 descriptions).1 ++
      ["\n🔍 Verification Results:\n" ++ verifyUpdates readBack descriptions])

/-- C5: every submitted language yields exactly one report line, computed
from that language's entry alone (so a failure or exception on one language
cannot abort or alter the others), and the store-write attempts are exactly
the submitted languages with a known language code, in order. -/
theorem updaterLoop_independent (m1 m2 : String → String → Except String Bool)
    (descriptions : List (String × String)) :
    (updaterLoop m1 m2 descriptions).1 = descriptions.map (updateLine m1 m2) ∧
      (updaterLoop m1 m2 descriptions).2 =
        descriptions.filterMap
          (fun entry => (language_mapping.lookup entry.1).map
            (fun lang_code => (lang_code, entry.2))) := by
  induction descriptions with
  | nil => exact ⟨rfl, rfl⟩
  | cons entry rest ih =>
    obtain ⟨lang_name, description⟩ := entry
    obtain ⟨ih1, ih2⟩ := ih
    cases h : language_mapping.lookup lang_name <;>
      simp [updaterLoop, updateLine, List.filterMap_cons, h, ih1, ih2]

/-- A read-back oracle returning the row value `"X "` under every language
context. -/
def readBackXSpace : String → Except String (Option (Option String)) :=
  fun _ => .ok (some (some "X "))

/-- C2 counterexample: submitting `"X"` for English while the store reads
back `"X "` — a different string — is reported as `Update verified`, because
`_verify_updates` compares with `.strip()` on both sides. A read-back that
differs from the submitted value is therefore not always reported
unverified. -/
theorem verifyLines_strip_counterexample :
    ("X " : String) ≠ "X" ∧
      verifyLines readBackXSpace [("English", "X")] =
        ["✅ English: Update verified"] := by
  exact ⟨by decide, by decide⟩

/-- C2 amended: for a submitted language with a known language code whose
verification read returns a row, the emitted flag is `Update verified`
exactly when the read-back value equals the submitted value after stripping
leading/trailing whitespace (the source compares
`actual_desc.strip() == expected_desc.strip()`); otherwise the
`Update failed` line with the two lengths is emitted — a strip-differing
read-back is never reported as success. -/
theorem verifyLine_characterisation
    (readBack : String → Except String (Option (Option String)))
    (lang_name lang_code expected : String) (fieldVal : Option String)
    (hlang : language_mapping.lookup lang_name = some lang_code)
    (hread : readBack lang_code = .ok (some fieldVal)) :
    verifyLine readBack (lang_name, expected) =
      some (if pyStrip (fieldVal.getD "") == pyStrip expected then
          "✅ " ++ lang_name ++ ": Update verified"
        else
          "❌ " ++ lang_name ++ ": Update failed - Expected length " ++
            toString expected.length ++ ", got length " ++
            toString (fieldVal.getD "").length) := by
  unfold verifyLine
  rw [hlang]
  dsimp only
  rw [hread]
  cases hc : pyStrip (fieldVal.getD "") == pyStrip expected <;> simp [hc]

/-- Witness for `verifyLine_characterisation`: an English read-back equal to
the submitted value is reported verified. -/
theorem verifyLine_characterisation_witness :
    verifyLine (fun _ => .ok (some (some "Sturdy oak chair"))) ("English", "Sturdy oak chair") =
      some (if pyStrip ((some "Sturdy oak chair").getD "") == pyStrip "Sturdy oak chair" then
          "✅ " ++ "English" ++ ": Update verified"
        else
          "❌ " ++ "English" ++ ": Update failed - Expected length " ++
            toString ("Sturdy oak chair" : String).length ++ ", got length " ++
            toString (((some "Sturdy oak chair") : Option String).getD "").length) :=
  verifyLine_characterisation (fun _ => .ok (some (some "Sturdy oak chair")))
    "English" "en_US" "Sturdy oak chair" (some "Sturdy oak chair") rfl rfl

set_option maxRecDepth 40000 in
/-- C10: a submitted language outside the supported mapping (`French`
included, although the tool's own description advertises it) produces the
`Unknown language` report line, adds nothing to the write-attempt log, and
is silently skipped by the verification loop. -/
theorem updater_unknown_language (m1 m2 : String → String → Except String Bool)
    (readBack : String → Except String (Option (Option String)))
    (lang_name description : String) (rest : List (String × String))
    (h : language_mapping.lookup lang_name = none) :
    (updaterLoop m1 m2 ((lang_name, description) :: rest)).1 =
        ("❌ Unknown language: " ++ lang_name) :: (updaterLoop m1 m2 rest).1 ∧
      (updaterLoop m1 m2 ((lang_name, description) :: rest)).2 =
        (updaterLoop m1 m2 rest).2 ∧
      verifyLines readBack ((lang_name, description) :: rest) =
        verifyLines readBack rest ∧
      language_mapping.lookup "French" = none ∧
      pyIn "French" updaterToolDescription = true := by
  refine ⟨?_, ?_, ?_, by decide, by decide⟩
  · simp [updaterLoop, h]
  · simp [updaterLoop, h]
  · simp [verifyLines, verifyLine, h]

/-- Witness for `updater_unknown_language` at the advertised-but-unsupported
language `French`. -/
theorem updater_unknown_language_witness :
    (updaterLoop (fun _ _ => .ok true) (fun _ _ => .ok true) [("French", "Chaise en chêne")]).1 =
        ("❌ Unknown language: " ++ "French") ::
          (updaterLoop (fun _ _ => .ok true) (fun _ _ => .ok true) []).1 ∧
      (updaterLoop (fun _ _ => .ok true) (fun _ _ => .ok true) [("French", "Chaise en chêne")]).2 =
        (updaterLoop (fun _ _ => .ok true) (fun _ _ => .ok true) []).2 ∧
      verifyLines (fun _ => .ok (some (some "Chaise en chêne"))) [("French", "Chaise en chêne")] =
        verifyLines (fun _ => .ok (some (some "Chaise en chêne"))) [] ∧
      language_mapping.lookup "French" = none ∧
      pyIn "French" updaterToolDescription = true :=
  updater_unknown_language (fun _ _ => .ok true) (fun _ _ => .ok true)
    (fun _ => .ok (some (some "Chaise en chêne"))) "French" "Chaise en chêne" [] rfl
